import Mathlib

/-!
Verification of the rendering layer of the Quan-Minesweeper repository
(`src/pages/game.rs`), a Leptos UI for a Minesweeper engine.  The engine
itself (module `game_logic`) is outside the available sources; the few
engine facts needed (parameter record, state construction, cell
registration) are modelled from the specification and marked as such.
The rendering layer is embedded shallowly: each Leptos closure (event
handler, class function, inner-html function) becomes a pure Lean
function, and an event handler's effect on the engine is recorded as the
list of engine operations it invokes.
-/

/-- Cell interaction state, mirroring `game_logic::CellInteraction`
(declared in the missing module, but its three variants are fixed by the
spec and by the `match` arms in `game.rs`). -/
inductive CellInteraction where
  | Untouched
  | Cleared
  | Flagged
deriving Repr, DecidableEq

/-- Cell kind, mirroring `game_logic::CellKind`: a mine, or a clear cell
carrying its count of adjacent mines. -/
inductive CellKind where
  | Mine
  | Clear (n : Nat)
deriving Repr, DecidableEq

/-- Modelled from the spec: the board-size preset from the missing
`game_settings` module; `game.rs` only threads it through to a CSS class. -/
inductive Size where
  | Small
  | Medium
  | Large
deriving Repr, DecidableEq

/-- Modelled from the spec: construction parameters (spec section 3) from
the missing `game_logic` module, parsed from the URL query, plus the size
preset that `game.rs` reads from them. -/
structure GameParams where
  rows : Int
  columns : Int
  mine_count : Int
  size : Size
deriving Repr, DecidableEq

/-- Modelled from the spec: a query-parameter parse error (the `Err`
payload of `use_query::<GameParams>`); only carried around, never
inspected, by `game.rs`. -/
structure ParamsError where
  message : String
deriving Repr, DecidableEq

/-- Application error type, mirroring `app_error::AppError` as used by
`game.rs` line 75: the variant wrapping a parameter parse error. -/
inductive AppError where
  | ParamsError (e : ParamsError)
deriving Repr, DecidableEq

/-- An engine operation invoked by the rendering layer.  Callbacks are
identified by a token (`Nat`) standing for the `WriteSignal` handed to
`register_cell`. -/
inductive EngineOp where
  | reset
  | dig (row column : Int)
  | flag (row column : Int)
  | registerCell (row column : Int) (cb : Nat)
deriving Repr, DecidableEq

/-- The coordinate an engine operation addresses, if any. -/
def EngineOp.coord : EngineOp → Option (Int × Int)
  | .reset => none
  | .dig r c => some (r, c)
  | .flag r c => some (r, c)
  | .registerCell r c _ => some (r, c)

/-- Modelled from the spec: the engine state `game_logic::GameState`.
Cells map a coordinate to `(interaction, kind)`; the observation registry
maps a coordinate to the registered callback token (spec section 3). -/
structure GameState where
  params : GameParams
  rows : Int
  columns : Int
  mine_count : Int
  cells : Int → Int → CellInteraction × CellKind
  registry : List ((Int × Int) × Nat)

/-- Modelled from the spec: whether the parameter-built layout places a
mine at a coordinate.  The spec draws the layout uniformly at random; no
claim depends on the layout, so the model fixes the deterministic
row-major placement of `mine_count` mines. -/
def mineAt (p : GameParams) (row column : Int) : Bool :=
  decide (0 ≤ row) && decide (row < p.rows) &&
  decide (0 ≤ column) && decide (column < p.columns) &&
  decide (row * p.columns + column < p.mine_count)

/-- The Moore neighbourhood offsets (spec glossary). -/
def mooreOffsets : List (Int × Int) :=
  [(-1, -1), (-1, 0), (-1, 1), (0, -1), (0, 1), (1, -1), (1, 0), (1, 1)]

/-- Modelled from the spec: count of mine neighbours of a cell. -/
def neighborMines (p : GameParams) (row column : Int) : Nat :=
  mooreOffsets.countP fun d => mineAt p (row + d.1) (column + d.2)

/-- Modelled from the spec: `GameState::new` builds a ready board from the
parameters — every cell `Untouched`, mine cells `Mine`, other cells
`Clear(n)` with `n` the mine-neighbour count, empty observation registry
(spec section 4.1, operation initialise). -/
def GameState.new (p : GameParams) : GameState where
  params := p
  rows := p.rows
  columns := p.columns
  mine_count := p.mine_count
  cells := fun r c =>
    if mineAt p r c then (CellInteraction.Untouched, CellKind.Mine)
    else (CellInteraction.Untouched, CellKind.Clear (neighborMines p r c))
  registry := []

/-- Modelled from the spec: `GameState::dimensions`, read by `game.rs`
line 33 to lay out the board. -/
def GameState.dimensions (gs : GameState) : Int × Int :=
  (gs.rows, gs.columns)

/-- Modelled from the spec: `GameState::register_cell` stores the callback
for the coordinate (replacing any prior entry) and immediately invokes it
once with the cell's current `(interaction, kind)` (spec section 4.1,
operation register).  The returned list records the invocations made, as
`(callback, value)` pairs. -/
def GameState.register_cell (gs : GameState) (row column : Int) (cb : Nat) :
    GameState × List (Nat × (CellInteraction × CellKind)) :=
  ({ gs with
      registry :=
        ((row, column), cb) ::
          gs.registry.filter fun e => !decide (e.1 = (row, column)) },
   [(cb, gs.cells row column)])

/-- A DOM contextmenu event, reduced to the one bit the handler touches. -/
structure ContextMenuEvent where
  defaultPrevented : Bool
deriving Repr, DecidableEq

/-- The window-level contextmenu handler installed by `Game` (line 28):
`|ev| ev.prevent_default()`. -/
def contextmenuHandler (ev : ContextMenuEvent) : ContextMenuEvent :=
  { ev with defaultPrevented := true }

/-- What the `Game` component renders: on a successful parse, the game
view carrying the constructed state and the board dimensions and size it
passes to `Board`; on a parse failure, the error view with its collected
errors. -/
inductive GameRender where
  | game (gameState : GameState) (rows columns : Int) (size : Size)
  | errorView (outside_errors : List AppError)

/-- The `GameState` instances a render result holds. -/
def GameRender.createdGameStates : GameRender → List GameState
  | .game st _ _ _ => [st]
  | .errorView _ => []

/-- Whether the render result is the error view. -/
def GameRender.isErrorView : GameRender → Bool
  | .game _ _ _ _ => false
  | .errorView _ => true

/-- The `Game` component as constructed: the window contextmenu listener
it installs, and what it renders. -/
structure GameComponent where
  onContextmenu : ContextMenuEvent → ContextMenuEvent
  render : GameRender

/-- Embedding of the `Game` component body (`game.rs` lines 27-83): the
window contextmenu listener is installed first, then the query parse
result is matched — `Ok` builds a `GameState` and renders the game view,
`Err` wraps the error in `AppError::ParamsError` and renders the error
view. -/
def gameRender : Except ParamsError GameParams → GameRender
  | .ok params =>
    let game_state := GameState.new params
    .game game_state game_state.dimensions.1 game_state.dimensions.2 params.size
  | .error error =>
    .errorView [AppError.ParamsError error]

/-- The `Game` component with its window listener (line 28) and the
rendered view. -/
def Game (query : Except ParamsError GameParams) : GameComponent where
  onContextmenu := contextmenuHandler
  render := gameRender query

/-- Class of the div wrapping the New Game link (`game.rs` line 42):
`format!("btn {}", if new_game_enabled() \x7b "" \x7d else \x7b "disabled" \x7d)`. -/
def newGameBtnDivClass (new_game_enabled : Bool) : String :=
  "btn " ++ (if new_game_enabled then "" else "disabled")

/-- Class of the New Game link itself (`game.rs` line 54). -/
def newGameLinkClass (new_game_enabled : Bool) : String :=
  if new_game_enabled then "" else "disabled"

/-- Engine operations invoked by the New Game click handler (`game.rs`
lines 46-52): `reset` exactly when the new-game-enabled signal reads
true at the time of the click. -/
def newGameClickOps (new_game_enabled : Bool) : List EngineOp :=
  if new_game_enabled then [EngineOp.reset] else []

/-- Engine operations invoked by a cell's mouseup handler (`game.rs`
lines 128-137): button 0 digs, button 2 flags, anything else does
nothing. -/
def cellMouseupOps (row column : Int) (button : Int) : List EngineOp :=
  match button with
  | 0 => [EngineOp.dig row column]
  | 2 => [EngineOp.flag row column]
  | _ => []

/-- Engine operations invoked when a `Cell` component is instantiated
(`game.rs` line 124): a single `register_cell` with the cell's own
coordinate and its write signal. -/
def cellSetupOps (row column : Int) (cb : Nat) : List EngineOp :=
  [EngineOp.registerCell row column cb]

/-- All engine operations a `Cell` at a coordinate can ever invoke:
its registration plus whatever its mouseup handler emits. -/
def cellEngineOps (row column : Int) (cb : Nat) (button : Int) : List EngineOp :=
  cellSetupOps row column cb ++ cellMouseupOps row column button

/-- Running a list of engine operations through an arbitrary
interpretation of single operations. -/
def runOps (step : EngineOp → GameState → GameState) (ops : List EngineOp)
    (gs : GameState) : GameState :=
  ops.foldl (fun s op => step op s) gs

/-- The list `0, 1, ..., n-1` of `Int`, as iterated by a Rust
`(0..n)` range over `isize` (empty when `n ≤ 0`). -/
def rangeInt (n : Int) : List Int :=
  (List.range n.toNat).map (fun m : Nat => (m : Int))

/-- Coordinates of the cells the `Board`/`Row` components instantiate
(`game.rs` lines 100-115): one `Cell` per `(row, column)` with
`row ∈ (0..rows)` and `column ∈ (0..columns)`, in row-major order. -/
def boardCells (rows columns : Int) : List (Int × Int) :=
  (rangeInt rows).flatMap fun row => (rangeInt columns).map fun column => (row, column)

/-- Stand-in for the contents of an SVG asset file `svgs/<name>.svg`
pulled in with `include_str!`; the assets are not under the sources, so
each is modelled as the distinct token naming its file. -/
def svgAsset (name : String) : String :=
  "svgs/" ++ name ++ ".svg"

/-- The digit-icon array `NUM_SVGS` (`game.rs` lines 10-20): nine
entries, the empty string at index 0 and the digit SVG assets at
indices 1 through 8. -/
def NUM_SVGS : List String :=
  ["", svgAsset "1", svgAsset "2", svgAsset "3", svgAsset "4",
   svgAsset "5", svgAsset "6", svgAsset "7", svgAsset "8"]

/-- The mine icon (`game.rs` line 22). -/
def BOMB_SVG : String := svgAsset "bomb"

/-- The flag icon (`game.rs` line 23). -/
def FLAG_SVG : String := svgAsset "flag"

/-- The cell class closure (`game.rs` lines 140-146): flagged cells first,
then mines, then numbered clear cells. -/
def cellClass (cell_state : CellInteraction × CellKind) : String :=
  match cell_state with
  | (CellInteraction.Flagged, _) => "cell flagged"
  | (_, CellKind.Mine) => "cell mine"
  | (_, CellKind.Clear num) => "cell num-" ++ toString num

/-- The `class:cleared` closure (`game.rs` lines 148-150). -/
def cellClearedClass (cell_state : CellInteraction × CellKind) : Bool :=
  match cell_state.1 with
  | CellInteraction.Cleared => true
  | _ => false

/-- The cell inner-html closure (`game.rs` lines 155-176).  The digit case
indexes `NUM_SVGS` at the mine count; a Rust out-of-bounds index panics,
modelled by `none`. -/
def cellInnerHtml (cell_state : CellInteraction × CellKind) : Option String :=
  match cell_state.1 with
  | CellInteraction.Untouched => some ""
  | CellInteraction.Cleared =>
    match cell_state.2 with
    | CellKind.Mine => some BOMB_SVG
    | CellKind.Clear mines => NUM_SVGS[mines]?
  | CellInteraction.Flagged => some FLAG_SVG

/-- Instantiating a `Cell` component (`game.rs` lines 119-124): the local
cell-state signal starts as `(Untouched, Clear(0))`, then `register_cell`
is called on the game state, and each invocation the engine makes on the
callback overwrites the signal.  Returns the updated game state and the
signal value after setup. -/
def instantiateCell (gs : GameState) (row column : Int) (cb : Nat) :
    GameState × (CellInteraction × CellKind) :=
  let initial := (CellInteraction.Untouched, CellKind.Clear 0)
  let (gs', invs) := gs.register_cell row column cb
  (gs', invs.foldl (fun _ v => v.2) initial)

/-- Looking a coordinate up in the observation registry. -/
def registryLookup (gs : GameState) (row column : Int) : Option Nat :=
  (gs.registry.find? fun e => decide (e.1 = (row, column))).map Prod.snd

/-- Sample parameters for concrete witnesses: a 3 by 3 board with 2 mines. -/
def sampleParams : GameParams :=
  { rows := 3, columns := 3, mine_count := 2, size := Size.Small }

/-- Sample engine state for concrete witnesses. -/
def sampleState : GameState := GameState.new sampleParams

/-- Sample single-operation interpretation for concrete witnesses. -/
def sampleStep : EngineOp → GameState → GameState := fun _ gs => gs

/-! ## Helper lemmas -/

theorem cellMouseupOps_other (row column button : Int)
    (h0 : button ≠ 0) (h2 : button ≠ 2) : cellMouseupOps row column button = [] := by
  unfold cellMouseupOps
  split <;> simp_all

theorem cellMouseupOps_elem (row column button : Int) (op : EngineOp)
    (h : op ∈ cellMouseupOps row column button) :
    op = EngineOp.dig row column ∨ op = EngineOp.flag row column := by
  unfold cellMouseupOps at h
  split at h <;> simp_all

theorem mem_rangeInt (a n : Int) : a ∈ rangeInt n ↔ 0 ≤ a ∧ a < n := by
  simp only [rangeInt, List.mem_map, List.mem_range]
  constructor
  · rintro ⟨m, hm, rfl⟩
    omega
  · intro h
    exact ⟨a.toNat, by omega, by omega⟩

theorem nodup_rangeInt (n : Int) : (rangeInt n).Nodup :=
  (List.nodup_range _).map (fun a b h => by omega)

theorem boardCells_eq_product (rows columns : Int) :
    boardCells rows columns = rangeInt rows ×ˢ rangeInt columns := rfl

theorem nodup_boardCells (rows columns : Int) : (boardCells rows columns).Nodup := by
  rw [boardCells_eq_product]
  exact (nodup_rangeInt rows).product (nodup_rangeInt columns)

theorem mem_boardCells (rows columns r c : Int) :
    (r, c) ∈ boardCells rows columns ↔ 0 ≤ r ∧ r < rows ∧ 0 ≤ c ∧ c < columns := by
  rw [boardCells_eq_product, List.mem_product, mem_rangeInt, mem_rangeInt]
  tauto

theorem cellInnerHtml_untouched (k : CellKind) :
    cellInnerHtml (CellInteraction.Untouched, k) = some "" := rfl

theorem cellInnerHtml_flagged (k : CellKind) :
    cellInnerHtml (CellInteraction.Flagged, k) = some FLAG_SVG := rfl

/-! ## Claim theorems -/

/-- C1: when the construction-parameter query fails to parse, the `Game`
component creates no `GameState` and renders the error view built from
`AppError::ParamsError` in place of the board; a `GameState` is
constructed only in the successful-parse branch, where it is exactly
`GameState::new params`. -/
theorem game_parse_failure_renders_error (e : ParamsError) (p : GameParams) :
    (Game (Except.error e)).render = GameRender.errorView [AppError.ParamsError e] ∧
    ((Game (Except.error e)).render).createdGameStates = [] ∧
    ((Game (Except.error e)).render).isErrorView = true ∧
    ((Game (Except.ok p)).render).createdGameStates = [GameState.new p] ∧
    ((Game (Except.ok p)).render).isErrorView = false :=
  ⟨rfl, rfl, rfl, rfl, rfl⟩

/-- C2: a cell's mouseup handler maps button 0 to exactly `dig(row, column)`,
button 2 to exactly `flag(row, column)`, and invokes no engine operation
for any other button. -/
theorem cell_mouseup_dispatch (row column : Int) :
    cellMouseupOps row column 0 = [EngineOp.dig row column] ∧
    cellMouseupOps row column 2 = [EngineOp.flag row column] ∧
    ∀ button : Int, button ≠ 0 → button ≠ 2 → cellMouseupOps row column button = [] :=
  ⟨rfl, rfl, fun button h0 h2 => cellMouseupOps_other row column button h0 h2⟩

theorem cell_mouseup_dispatch_witness :
    cellMouseupOps 3 4 0 = [EngineOp.dig 3 4] ∧
    cellMouseupOps 3 4 2 = [EngineOp.flag 3 4] ∧
    cellMouseupOps 3 4 1 = [] := by
  have h := cell_mouseup_dispatch 3 4
  exact ⟨h.1, h.2.1, h.2.2 1 (by decide) (by decide)⟩

/-- C10: a mouseup with any button other than 0 or 2 hits the wildcard
branch, invokes no engine operation, and therefore leaves the game state
unchanged under any interpretation of the operations. -/
theorem cell_mouseup_wildcard_noop (row column button : Int)
    (step : EngineOp → GameState → GameState) (gs : GameState)
    (h0 : button ≠ 0) (h2 : button ≠ 2) :
    cellMouseupOps row column button = [] ∧
    runOps step (cellMouseupOps row column button) gs = gs := by
  have h := cellMouseupOps_other row column button h0 h2
  exact ⟨h, by rw [h]; rfl⟩

theorem cell_mouseup_wildcard_noop_witness :
    cellMouseupOps 0 0 1 = [] ∧
    runOps sampleStep (cellMouseupOps 0 0 1) sampleState = sampleState :=
  cell_mouseup_wildcard_noop 0 0 1 sampleStep sampleState (by decide) (by decide)

/-- C8: the `Game` component installs a window-level contextmenu listener
at construction (in both parse branches) whose handler calls
`prevent_default` on every contextmenu event. -/
theorem game_installs_contextmenu_listener
    (q : Except ParamsError GameParams) (ev : ContextMenuEvent) :
    (Game q).onContextmenu = contextmenuHandler ∧
    ((Game q).onContextmenu ev).defaultPrevented = true :=
  ⟨rfl, rfl⟩

/-- C4: a click on the New Game control invokes `reset` if and only if
the new-game-enabled signal reads true at the time of the click; when the
signal is false the click invokes no engine operation, so the game state
is unchanged under any interpretation, and both the wrapping div and the
link are rendered with the disabled class. -/
theorem new_game_click_policy (new_game_enabled : Bool)
    (step : EngineOp → GameState → GameState) (gs : GameState) :
    (EngineOp.reset ∈ newGameClickOps new_game_enabled ↔ new_game_enabled = true) ∧
    newGameClickOps true = [EngineOp.reset] ∧
    newGameClickOps false = [] ∧
    runOps step (newGameClickOps false) gs = gs ∧
    newGameBtnDivClass false = "btn disabled" ∧
    newGameLinkClass false = "disabled" := by
  refine ⟨?_, rfl, rfl, rfl, by decide, rfl⟩
  cases new_game_enabled <;> simp [newGameClickOps]

theorem new_game_click_policy_witness :
    (EngineOp.reset ∈ newGameClickOps true ↔ true = true) ∧
    newGameClickOps true = [EngineOp.reset] ∧
    newGameClickOps false = [] ∧
    runOps sampleStep (newGameClickOps false) sampleState = sampleState ∧
    newGameBtnDivClass false = "btn disabled" ∧
    newGameLinkClass false = "disabled" :=
  new_game_click_policy true sampleStep sampleState

/-- C5: a flagged cell is rendered with class `cell flagged` and the flag
icon regardless of its kind — in particular a flagged mine is never shown
as a mine — and the bomb icon or a digit icon appears only for a cell
whose interaction is `Cleared`. -/
theorem flagged_cells_render_flag (kind : CellKind) :
    cellClass (CellInteraction.Flagged, kind) = "cell flagged" ∧
    cellInnerHtml (CellInteraction.Flagged, kind) = some FLAG_SVG ∧
    cellInnerHtml (CellInteraction.Flagged, CellKind.Mine) ≠ some BOMB_SVG ∧
    (∀ (i : CellInteraction) (k : CellKind),
      cellInnerHtml (i, k) = some BOMB_SVG → i = CellInteraction.Cleared) ∧
    (∀ (i : CellInteraction) (k : CellKind) (d : Nat), 1 ≤ d → d ≤ 8 →
      cellInnerHtml (i, k) = some (NUM_SVGS.getD d "") → i = CellInteraction.Cleared) := by
  refine ⟨by cases kind <;> rfl, rfl, by decide, ?_, ?_⟩
  · intro i k h
    cases i with
    | Cleared => rfl
    | Untouched =>
      rw [cellInnerHtml_untouched] at h
      exact absurd h (by decide)
    | Flagged =>
      rw [cellInnerHtml_flagged] at h
      exact absurd h (by decide)
  · intro i k d h1 h8 h
    cases i with
    | Cleared => rfl
    | Untouched =>
      rw [cellInnerHtml_untouched] at h
      interval_cases d <;> exact absurd h (by decide)
    | Flagged =>
      rw [cellInnerHtml_flagged] at h
      interval_cases d <;> exact absurd h (by decide)

theorem flagged_cells_render_flag_witness :
    cellClass (CellInteraction.Flagged, CellKind.Mine) = "cell flagged" ∧
    cellInnerHtml (CellInteraction.Flagged, CellKind.Mine) = some FLAG_SVG ∧
    (CellInteraction.Cleared = CellInteraction.Cleared ∧
      CellInteraction.Cleared = CellInteraction.Cleared) := by
  have h := flagged_cells_render_flag CellKind.Mine
  refine ⟨h.1, h.2.1, ?_, ?_⟩
  · exact h.2.2.2.1 CellInteraction.Cleared CellKind.Mine rfl
  · exact h.2.2.2.2 CellInteraction.Cleared (CellKind.Clear 3) 3 (by decide) (by decide)
      (by decide)

/-- C9: for a cleared cell of kind `Clear(n)` with `n ≤ 8`, the 9-element
`NUM_SVGS` array is indexed in bounds so rendering yields a value, and a
cleared `Clear(0)` cell renders the empty string at index 0, not a digit
icon. -/
theorem num_svgs_index_in_bounds (n : Nat) (h : n ≤ 8) :
    NUM_SVGS.length = 9 ∧
    (∃ s, cellInnerHtml (CellInteraction.Cleared, CellKind.Clear n) = some s) ∧
    cellInnerHtml (CellInteraction.Cleared, CellKind.Clear 0) = some "" := by
  refine ⟨rfl, ?_, rfl⟩
  have hn : n < NUM_SVGS.length := by
    simp only [NUM_SVGS, List.length]
    omega
  exact ⟨NUM_SVGS.get ⟨n, hn⟩, by
    show NUM_SVGS[n]? = _
    rw [List.getElem?_eq_getElem hn]
    rfl⟩

theorem num_svgs_index_in_bounds_witness :
    NUM_SVGS.length = 9 ∧
    (∃ s, cellInnerHtml (CellInteraction.Cleared, CellKind.Clear 5) = some s) ∧
    cellInnerHtml (CellInteraction.Cleared, CellKind.Clear 0) = some "" :=
  num_svgs_index_in_bounds 5 (by decide)

/-- C7: `register_cell` stores the callback for the coordinate and then
immediately invokes it exactly once with that cell's current
`(interaction, kind)`, so after a `Cell` component's registration its
local signal — initialised to `(Untouched, Clear(0))` — equals the
engine's state for that cell. -/
theorem register_cell_syncs_signal (gs : GameState) (row column : Int) (cb : Nat) :
    (gs.register_cell row column cb).2 = [(cb, gs.cells row column)] ∧
    ((gs.register_cell row column cb).2).length = 1 ∧
    (instantiateCell gs row column cb).2 = gs.cells row column ∧
    registryLookup (gs.register_cell row column cb).1 row column = some cb := by
  refine ⟨rfl, rfl, rfl, ?_⟩
  simp [registryLookup, GameState.register_cell, List.find?]

/-- C6: the rendering layer mutates or constructs engine state only
through `GameState::new` (successful-parse branch only), `reset` (New
Game click), `dig`/`flag` (cell mouseup), and `register_cell` (cell
instantiation): each handler's emitted operations are exactly of those
shapes, and the game view's state is always the one `GameState::new`
built. -/
theorem rendering_layer_engine_calls :
    (∀ (q : Except ParamsError GameParams) (st : GameState) (r c : Int) (s : Size),
      (Game q).render = GameRender.game st r c s →
        ∃ p, q = Except.ok p ∧ st = GameState.new p) ∧
    (∀ (enabled : Bool) (op : EngineOp),
      op ∈ newGameClickOps enabled → op = EngineOp.reset) ∧
    (∀ (row column : Int) (cb : Nat) (op : EngineOp),
      op ∈ cellSetupOps row column cb → op = EngineOp.registerCell row column cb) ∧
    (∀ (row column button : Int) (op : EngineOp),
      op ∈ cellMouseupOps row column button →
        op = EngineOp.dig row column ∨ op = EngineOp.flag row column) := by
  refine ⟨?_, ?_, ?_, ?_⟩
  · intro q st r c s h
    cases q with
    | ok p =>
      refine ⟨p, rfl, ?_⟩
      have h' : GameRender.game (GameState.new p) (GameState.new p).dimensions.1
          (GameState.new p).dimensions.2 p.size = GameRender.game st r c s := h
      injection h' with h1 _ _ _
      exact h1.symm
    | error e =>
      have h' : GameRender.errorView [AppError.ParamsError e] = GameRender.game st r c s := h
      exact absurd h' (by simp)
  · intro enabled op h
    cases enabled with
    | true => simpa [newGameClickOps] using h
    | false => simp [newGameClickOps] at h
  · intro row column cb op h
    simpa [cellSetupOps] using h
  · intro row column button op h
    exact cellMouseupOps_elem row column button op h

theorem rendering_layer_engine_calls_witness :
    (∃ p, (Except.ok sampleParams : Except ParamsError GameParams) = Except.ok p ∧
      GameState.new sampleParams = GameState.new p) ∧
    EngineOp.reset = EngineOp.reset ∧
    EngineOp.registerCell 0 1 7 = EngineOp.registerCell 0 1 7 ∧
    (EngineOp.dig 0 1 = EngineOp.dig 0 1 ∨ EngineOp.dig 0 1 = EngineOp.flag 0 1) := by
  have h := rendering_layer_engine_calls
  refine ⟨?_, ?_, ?_, ?_⟩
  · exact h.1 (Except.ok sampleParams) (GameState.new sampleParams) 3 3 Size.Small rfl
  · exact h.2.1 true EngineOp.reset (by decide)
  · exact h.2.2.1 0 1 7 (EngineOp.registerCell 0 1 7) (by decide)
  · exact h.2.2.2 0 1 0 (EngineOp.dig 0 1) (by decide)

/-- C3: the board builds exactly one `Cell` per coordinate `(row, column)`
with `0 ≤ row < rows` and `0 ≤ column < columns`, and every engine
operation a `Cell` invokes carries its own coordinate, so every
coordinate the rendering layer passes to the engine is in range. -/
theorem board_cells_in_range (rows columns r c : Int) :
    ((r, c) ∈ boardCells rows columns ↔ 0 ≤ r ∧ r < rows ∧ 0 ≤ c ∧ c < columns) ∧
    (boardCells rows columns).Nodup ∧
    (∀ (cb : Nat) (button : Int) (op : EngineOp),
      op ∈ cellEngineOps r c cb button → EngineOp.coord op = some (r, c)) ∧
    ((r, c) ∈ boardCells rows columns →
      ∀ (cb : Nat) (button : Int) (op : EngineOp) (rc : Int × Int),
        op ∈ cellEngineOps r c cb button → EngineOp.coord op = some rc →
          0 ≤ rc.1 ∧ rc.1 < rows ∧ 0 ≤ rc.2 ∧ rc.2 < columns) := by
  have hcoord : ∀ (cb : Nat) (button : Int) (op : EngineOp),
      op ∈ cellEngineOps r c cb button → EngineOp.coord op = some (r, c) := by
    intro cb button op h
    rcases List.mem_append.mp h with h' | h'
    · have : op = EngineOp.registerCell r c cb := by simpa [cellSetupOps] using h'
      rw [this]
      rfl
    · rcases cellMouseupOps_elem r c button op h' with h'' | h'' <;> rw [h''] <;> rfl
  refine ⟨mem_boardCells rows columns r c, nodup_boardCells rows columns, hcoord, ?_⟩
  · intro hmem cb button op rc hop hrc
    have h1 := hcoord cb button op hop
    rw [h1] at hrc
    have h2 : rc = (r, c) := by
      injection hrc with h3
      exact h3.symm
    rw [h2]
    exact (mem_boardCells rows columns r c).mp hmem

theorem board_cells_in_range_witness :
    ((1, 2) ∈ boardCells 2 3 ↔
      0 ≤ (1 : Int) ∧ (1 : Int) < 2 ∧ 0 ≤ (2 : Int) ∧ (2 : Int) < 3) ∧
    (boardCells 2 3).Nodup ∧
    EngineOp.coord (EngineOp.dig 1 2) = some (1, 2) ∧
    (0 ≤ ((1, 2) : Int × Int).1 ∧ ((1, 2) : Int × Int).1 < 2 ∧
      0 ≤ ((1, 2) : Int × Int).2 ∧ ((1, 2) : Int × Int).2 < 3) := by
  have h := board_cells_in_range 2 3 1 2
  refine ⟨h.1, h.2.1, ?_, ?_⟩
  · exact h.2.2.1 0 0 (EngineOp.dig 1 2) (by decide)
  · exact h.2.2.2 (by decide) 0 0 (EngineOp.dig 1 2) (1, 2) (by decide) rfl

